import Mathlib

/-!
Shallow embedding of the budget-analytics core of `app.py`.

Python dicts are modelled as ordered association lists (`List (String × _)`),
matching Python's insertion-ordered dict semantics; monetary amounts are
integers (`Int`, per the data model) and every computation the source performs
in floating point (rates, percentages, potential savings) is modelled exactly
in `ℚ`.
-/

/-! ### Data model, operations and concrete snapshots -/

/-- Income source names, in declaration order (`INCOME_CATEGORIES` in `app.py`). -/
def INCOME_CATEGORIES : List String :=
  ["Salary", "Side Income", "Investments", "Other Income"]

/-- Expense taxonomy: category → ordered subcategory list
(`EXPENSE_CATEGORIES` in `app.py`, an insertion-ordered dict). -/
def EXPENSE_CATEGORIES : List (String × List String) :=
  [("Housing", ["Rent/Mortgage", "Utilities", "Internet", "Maintenance"]),
   ("Transportation", ["Public Transport", "Car Expenses", "Fuel", "Car Insurance", "Car Maintenance"]),
   ("Food", ["Groceries", "Eating Out", "Food Delivery"]),
   ("Entertainment", ["Streaming Services", "Movies/Events", "Hobbies"]),
   ("Health", ["Insurance", "Medication", "Gym/Fitness"]),
   ("Personal", ["Clothing", "Haircuts", "Personal Care"]),
   ("Education", ["Courses", "Books", "School Fees"]),
   ("Savings", ["Emergency Fund", "Investment Savings", "Retirement"]),
   ("Debt", ["Student Loans", "Credit Card", "Other Loans"]),
   ("Other", ["Gifts", "Charity", "Miscellaneous"])]

/-- `budget_data['income']`: mapping from income source to amount. -/
abbrev IncomeMap := List (String × Int)

/-- One category's `{subcategory: amount}` mapping. -/
abbrev SubMap := List (String × Int)

/-- `budget_data['expenses']`: mapping from category to subcategory mapping. -/
abbrev ExpenseMap := List (String × SubMap)

/-- A whole budget snapshot (`budget_data` in `app.py`). -/
structure BudgetData where
  income : IncomeMap
  expenses : ExpenseMap
deriving Repr, DecidableEq

/-- Python's `m.get(k, d)` on a dict modelled as an association list. -/
def dictGet (m : List (String × α)) (k : String) (d : α) : α :=
  (m.lookup k).getD d

/-- `sum(m.values())` for a dict of amounts. -/
def sumValues (m : List (String × Int)) : Int :=
  (m.map Prod.snd).sum

/-- `get_total_income` from `app.py`: `sum(income_data.values())`. -/
def get_total_income (income_data : IncomeMap) : Int :=
  sumValues income_data

/-- `get_total_expenses` from `app.py`: loop accumulating
`sum(subcategories.values())` over every category. -/
def get_total_expenses (expenses_data : ExpenseMap) : Int :=
  expenses_data.foldl (fun total cs => total + sumValues cs.2) 0

/-- `get_savings` from `app.py`: `income - expenses`. -/
def get_savings (income expenses : Int) : Int :=
  income - expenses

/-- One row of the breakdown DataFrame built by `get_expense_breakdown`:
`Category` (the label), `Amount`, and the optional `Parent` column present
only on subcategory rows. -/
structure BreakdownLine where
  category : String
  amount : Int
  parent : Option String
deriving Repr, DecidableEq

/-- `get_expense_breakdown` from `app.py`: for each category append one
total line, then append one line per subcategory with positive amount,
labelled `"{category} - {subcategory}"` with `Parent = category`. -/
def get_expense_breakdown (expenses_data : ExpenseMap) : List BreakdownLine :=
  expenses_data.foldl
    (fun data cs =>
      let category_total := sumValues cs.2
      let data := data ++ [⟨cs.1, category_total, none⟩]
      cs.2.foldl
        (fun data sa =>
          if sa.2 > 0 then
            data ++ [⟨cs.1 ++ " - " ++ sa.1, sa.2, some cs.1⟩]
          else data)
        data)
    []

/-- The savings-rate expression `savings/total_income*100 if total_income > 0
else 0`, duplicated verbatim in `generate_savings_suggestions`,
`export_to_excel` and `main` in `app.py`. -/
def savingsRate (total_income savings : Int) : ℚ :=
  if total_income > 0 then (savings : ℚ) / (total_income : ℚ) * 100 else 0

/-- One advisory item produced by `generate_savings_suggestions`: its `title`
and signed `potential_savings` (the `description` field is presentation-only
formatted text and carries no further data). -/
structure Suggestion where
  title : String
  potential_savings : ℚ
deriving Repr, DecidableEq

/-- `generate_savings_suggestions` from `app.py`: the seven sequential rules,
appended in program order. -/
def generate_savings_suggestions (budget_data : BudgetData) : List Suggestion :=
  let income_data := budget_data.income
  let expenses_data := budget_data.expenses
  let total_income := get_total_income income_data
  let total_expenses := get_total_expenses expenses_data
  let current_savings := get_savings total_income total_expenses
  let savings_rate := savingsRate total_income current_savings
  let s1 : List Suggestion :=
    if savings_rate < 20 then
      [⟨"Increase Your Savings Rate",
        if (current_savings : ℚ) < (total_income : ℚ) * (2/10) then
          (total_income : ℚ) * (2/10) - (current_savings : ℚ) else 0⟩]
    else []
  let housing_expenses := dictGet expenses_data "Housing" []
  let housing_total := sumValues housing_expenses
  let housing_pct : ℚ :=
    if total_income > 0 then (housing_total : ℚ) / (total_income : ℚ) * 100 else 0
  let s2 : List Suggestion :=
    if housing_pct > 30 then
      [⟨"Reduce Housing Costs",
        if (housing_total : ℚ) > (total_income : ℚ) * (3/10) then
          (housing_total : ℚ) - (total_income : ℚ) * (3/10) else 0⟩]
    else []
  let food_expenses := dictGet expenses_data "Food" []
  let eating_out := dictGet food_expenses "Eating Out" 0 + dictGet food_expenses "Food Delivery" 0
  let groceries := dictGet food_expenses "Groceries" 0
  let s3 : List Suggestion :=
    if (eating_out : ℚ) > (groceries : ℚ) * (1/2) ∧ eating_out > 0 then
      [⟨"Reduce Dining Out Expenses", (eating_out : ℚ) * (1/2)⟩]
    else []
  let entertainment_expenses := dictGet expenses_data "Entertainment" []
  let entertainment_total := sumValues entertainment_expenses
  let entertainment_pct : ℚ :=
    if total_income > 0 then (entertainment_total : ℚ) / (total_income : ℚ) * 100 else 0
  let s4 : List Suggestion :=
    if entertainment_pct > 10 then
      [⟨"Review Entertainment Spending", (entertainment_total : ℚ) * (3/10)⟩]
    else []
  let streaming_services := dictGet (dictGet expenses_data "Entertainment" []) "Streaming Services" 0
  let s5 : List Suggestion :=
    if streaming_services > 800 then
      [⟨"Review Subscription Services", (streaming_services : ℚ) * (4/10)⟩]
    else []
  let transport_expenses := dictGet expenses_data "Transportation" []
  let transport_total := sumValues transport_expenses
  let transport_pct : ℚ :=
    if total_income > 0 then (transport_total : ℚ) / (total_income : ℚ) * 100 else 0
  let s6 : List Suggestion :=
    if transport_pct > 15 then
      [⟨"Optimize Transportation Costs", (transport_total : ℚ) * (2/10)⟩]
    else []
  let emergency_fund := dictGet (dictGet expenses_data "Savings" []) "Emergency Fund" 0
  let s7 : List Suggestion :=
    if (emergency_fund : ℚ) < (total_income : ℚ) * (1/10) then
      [⟨"Build an Emergency Fund", -(total_income : ℚ) * (1/10)⟩]
    else []
  s1 ++ s2 ++ s3 ++ s4 ++ s5 ++ s6 ++ s7

/-- One row of the `Summary` sheet in `export_to_excel`. -/
structure SummaryRow where
  category : String
  amount : ℚ
deriving Repr, DecidableEq

/-- One row of the `Income` sheet in `export_to_excel`. -/
structure IncomeRow where
  category : String
  amount : ℚ
deriving Repr, DecidableEq

/-- One row of the `Expenses` sheet in `export_to_excel`. The two percentage
columns hold the numeric value the source formats into a percent string;
`pct_of_category` is absent (`none`) on category `TOTAL` rows. -/
structure ExpenseRow where
  main_category : String
  subcategory : String
  amount : ℚ
  pct_of_category : Option ℚ
  pct_of_income : ℚ
deriving Repr, DecidableEq

/-- The three sheets assembled by `export_to_excel` (the Excel rendering and
currency formatting are presentation and out of the model). -/
structure ExcelExport where
  summary : List SummaryRow
  income : List IncomeRow
  expenses : List ExpenseRow
deriving Repr, DecidableEq

/-- `export_to_excel` from `app.py`: the data of the three sheets. -/
def export_to_excel (budget_data : BudgetData) : ExcelExport :=
  let income_data := budget_data.income
  let expenses_data := budget_data.expenses
  let total_income := get_total_income income_data
  let total_expenses := get_total_expenses expenses_data
  let savings := get_savings total_income total_expenses
  let savings_rate := savingsRate total_income savings
  let summary_rows : List SummaryRow :=
    [⟨"Total Income", (total_income : ℚ)⟩,
     ⟨"Total Expenses", (total_expenses : ℚ)⟩,
     ⟨"Savings", (savings : ℚ)⟩,
     ⟨"Savings Rate (%)", savings_rate⟩]
  let income_rows : List IncomeRow :=
    income_data.map fun p => ⟨p.1, (p.2 : ℚ)⟩
  let expense_rows : List ExpenseRow :=
    expenses_data.foldl
      (fun rows cs =>
        let category_total := sumValues cs.2
        let rows := rows ++
          [⟨cs.1, "TOTAL", (category_total : ℚ), none,
            if total_income > 0 then (category_total : ℚ) / (total_income : ℚ) * 100 else 0⟩]
        cs.2.foldl
          (fun rows sa =>
            if sa.2 > 0 then
              rows ++
                [⟨cs.1, sa.1, (sa.2 : ℚ),
                  some (if category_total > 0 then (sa.2 : ℚ) / (category_total : ℚ) * 100 else 0),
                  if total_income > 0 then (sa.2 : ℚ) / (total_income : ℚ) * 100 else 0⟩]
            else rows)
          rows)
      []
  ⟨summary_rows, income_rows, expense_rows⟩

/-- One entry of the `hierarchy_data` list built in `main` of `app.py` for the
treemap/sunburst charts. -/
structure HierarchyNode where
  id : String
  parent : String
  value : Int
  name : String
  is_root : Bool
deriving Repr, DecidableEq

/-- Occurrence test for the separator `" - "` in a character list: the
substring test `' - ' in s` that `main` uses on breakdown labels. -/
def containsSep : List Char → Bool
  | ' ' :: '-' :: ' ' :: _ => true
  | _ :: rest => containsSep rest
  | [] => false

/-- Leftmost split of a character list on the separator `" - "`, with the
semantics of Python's `s.split(' - ')` (always at least one piece). -/
def splitSepCore (acc : List Char) : List Char → List (List Char)
  | ' ' :: '-' :: ' ' :: rest => acc.reverse :: splitSepCore [] rest
  | c :: rest => splitSepCore (c :: acc) rest
  | [] => [acc.reverse]

/-- The test `' - ' in s` used in `main` to separate category rows from
subcategory rows. -/
def hasSubSep (s : String) : Bool :=
  containsSep s.data

/-- Python's `s.split(' - ')` on a breakdown label. -/
def splitSep (s : String) : List String :=
  (splitSepCore [] s.data).map fun cs => ⟨cs⟩

/-- The hierarchy construction in `main` of `app.py`: root nodes from the
category rows of the breakdown (sorted by amount, descending, as polars
`sort('Amount', descending=True)` does), then child nodes from the
subcategory rows, recovering parent and name by splitting the label on
`" - "`. -/
def hierarchy_data (expenses_data : ExpenseMap) : List HierarchyNode :=
  let expense_df := get_expense_breakdown expenses_data
  let main_categories :=
    (expense_df.filter (fun l => !hasSubSep l.category)).mergeSort
      (fun a b => decide (b.amount ≤ a.amount))
  let sub_rows := expense_df.filter (fun l => hasSubSep l.category)
  (main_categories.map fun l => ⟨l.category, "", l.amount, l.category, true⟩)
    ++ sub_rows.map (fun l =>
        let parts := splitSep l.category
        ⟨l.category, parts.headD "", l.amount, parts.getD 1 "", false⟩)

/-- The category total line the breakdown emits for one category entry. -/
def catLine (cs : String × SubMap) : BreakdownLine :=
  ⟨cs.1, sumValues cs.2, none⟩

/-- The qualifying (positive-amount) subcategory lines the breakdown emits
for one category entry, in subcategory order. -/
def subLines (cs : String × SubMap) : List BreakdownLine :=
  (cs.2.filter fun sa => decide (sa.2 > 0)).map fun sa =>
    ⟨cs.1 ++ " - " ++ sa.1, sa.2, some cs.1⟩

/-- The rows `export_to_excel` appends to the Expenses sheet for one category
entry, given the snapshot's total income: the `TOTAL` row, then one row per
positive-amount subcategory. -/
def expenseChunk (ti : Int) (cs : String × SubMap) : List ExpenseRow :=
  ⟨cs.1, "TOTAL", (sumValues cs.2 : ℚ), none,
    if ti > 0 then (sumValues cs.2 : ℚ) / (ti : ℚ) * 100 else 0⟩ ::
  (cs.2.filter fun sa => decide (sa.2 > 0)).map fun sa =>
    ⟨cs.1, sa.1, (sa.2 : ℚ),
      some (if sumValues cs.2 > 0 then (sa.2 : ℚ) / (sumValues cs.2 : ℚ) * 100 else 0),
      if ti > 0 then (sa.2 : ℚ) / (ti : ℚ) * 100 else 0⟩

/-- Rule 1 of `generate_savings_suggestions` (savings rate below 20%). -/
def rule1 (b : BudgetData) : List Suggestion :=
  let total_income := get_total_income b.income
  let current_savings := get_savings total_income (get_total_expenses b.expenses)
  if savingsRate total_income current_savings < 20 then
    [⟨"Increase Your Savings Rate",
      if (current_savings : ℚ) < (total_income : ℚ) * (2/10) then
        (total_income : ℚ) * (2/10) - (current_savings : ℚ) else 0⟩]
  else []

/-- Rule 2 of `generate_savings_suggestions` (housing above 30% of income). -/
def rule2 (b : BudgetData) : List Suggestion :=
  let total_income := get_total_income b.income
  let housing_total := sumValues (dictGet b.expenses "Housing" [])
  if (if total_income > 0 then (housing_total : ℚ) / (total_income : ℚ) * 100 else 0) > 30 then
    [⟨"Reduce Housing Costs",
      if (housing_total : ℚ) > (total_income : ℚ) * (3/10) then
        (housing_total : ℚ) - (total_income : ℚ) * (3/10) else 0⟩]
  else []

/-- Rule 3 of `generate_savings_suggestions` (dining out above half of groceries). -/
def rule3 (b : BudgetData) : List Suggestion :=
  let food_expenses := dictGet b.expenses "Food" []
  let eating_out := dictGet food_expenses "Eating Out" 0 + dictGet food_expenses "Food Delivery" 0
  let groceries := dictGet food_expenses "Groceries" 0
  if (eating_out : ℚ) > (groceries : ℚ) * (1/2) ∧ eating_out > 0 then
    [⟨"Reduce Dining Out Expenses", (eating_out : ℚ) * (1/2)⟩]
  else []

/-- Rule 4 of `generate_savings_suggestions` (entertainment above 10% of income). -/
def rule4 (b : BudgetData) : List Suggestion :=
  let total_income := get_total_income b.income
  let entertainment_total := sumValues (dictGet b.expenses "Entertainment" [])
  if (if total_income > 0 then (entertainment_total : ℚ) / (total_income : ℚ) * 100 else 0) > 10 then
    [⟨"Review Entertainment Spending", (entertainment_total : ℚ) * (3/10)⟩]
  else []

/-- Rule 5 of `generate_savings_suggestions` (streaming above 800). -/
def rule5 (b : BudgetData) : List Suggestion :=
  let streaming_services := dictGet (dictGet b.expenses "Entertainment" []) "Streaming Services" 0
  if streaming_services > 800 then
    [⟨"Review Subscription Services", (streaming_services : ℚ) * (4/10)⟩]
  else []

/-- Rule 6 of `generate_savings_suggestions` (transportation above 15% of income). -/
def rule6 (b : BudgetData) : List Suggestion :=
  let total_income := get_total_income b.income
  let transport_total := sumValues (dictGet b.expenses "Transportation" [])
  if (if total_income > 0 then (transport_total : ℚ) / (total_income : ℚ) * 100 else 0) > 15 then
    [⟨"Optimize Transportation Costs", (transport_total : ℚ) * (2/10)⟩]
  else []

/-- Rule 7 of `generate_savings_suggestions` (emergency fund below 10% of income). -/
def rule7 (b : BudgetData) : List Suggestion :=
  let total_income := get_total_income b.income
  let emergency_fund := dictGet (dictGet b.expenses "Savings" []) "Emergency Fund" 0
  if (emergency_fund : ℚ) < (total_income : ℚ) * (1/10) then
    [⟨"Build an Emergency Fund", -(total_income : ℚ) * (1/10)⟩]
  else []

/-- An all-zero expenses mapping over the full Schema. -/
def zeroExpenses : ExpenseMap :=
  EXPENSE_CATEGORIES.map fun cs => (cs.1, cs.2.map fun s => (s, 0))

/-- Scenario B of the spec: income Salary 20000 only, Housing Rent 8000 as
the only nonzero expense. -/
def scenarioB : BudgetData :=
  ⟨[("Salary", 20000), ("Side Income", 0), ("Investments", 0), ("Other Income", 0)],
   EXPENSE_CATEGORIES.map fun cs =>
     (cs.1, cs.2.map fun s =>
       (s, if cs.1 = "Housing" ∧ s = "Rent/Mortgage" then 8000 else 0))⟩

/-- A snapshot with income 45000 and every expense, in particular the
Emergency Fund amount, zero. -/
def scenarioEF : BudgetData :=
  ⟨[("Salary", 45000), ("Side Income", 0), ("Investments", 0), ("Other Income", 0)],
   zeroExpenses⟩

/-- The total of the category `c` as looked up in an expenses mapping. -/
def categoryTotalOf (ed : ExpenseMap) (c : String) : Int :=
  sumValues (dictGet ed c [])

/-- A concrete snapshot used to witness the export claims. -/
def witnessBudget : BudgetData :=
  ⟨[("Salary", 10), ("Side Income", 0), ("Investments", 0), ("Other Income", 0)],
   [("A", [("x", 3), ("y", 0)])]⟩

/-- A concrete two-category snapshot for the hierarchy witness. -/
def hierarchyWitnessExpenses : ExpenseMap :=
  [("Housing", [("Rent", 5), ("Util", 0)]), ("Food", [("Groceries", 2)])]

/-- Modelled from the spec: the `SchemaViolationError` conditions — a
snapshot is valid only if every amount is non-negative and every
income/category/subcategory key is in the Schema. `app.py` contains no such
check (no `SchemaViolationError` and no validation of keys or signs exists
in the source), so the requirement is modelled here from the spec's words to
compare against the engine's actual behavior. -/
def schemaValid (b : BudgetData) : Bool :=
  b.income.all (fun p => INCOME_CATEGORIES.contains p.1 && decide (0 ≤ p.2)) &&
  b.expenses.all (fun cs =>
    EXPENSE_CATEGORIES.any (fun sc =>
      sc.1 == cs.1 && cs.2.all (fun sa => sc.2.contains sa.1 && decide (0 ≤ sa.2))))

/-- A snapshot with a negative amount (violates the Schema invariants). -/
def badBudget : BudgetData :=
  ⟨[("Salary", 1000)], [("Housing", [("Rent/Mortgage", -5)])]⟩

/-- A snapshot with a category key outside the Schema. -/
def badBudget2 : BudgetData :=
  ⟨[("Salary", 1000)], [("Teleport", [("Beam", 3)])]⟩

/-! ### Verification -/

theorem breakdown_inner (c : String) (subs : SubMap) (data : List BreakdownLine) :
    subs.foldl
      (fun data sa =>
        if sa.2 > 0 then data ++ [⟨c ++ " - " ++ sa.1, sa.2, some c⟩] else data) data
      = data ++ (subs.filter fun sa => decide (sa.2 > 0)).map
          (fun sa => ⟨c ++ " - " ++ sa.1, sa.2, some c⟩) := by
  induction subs generalizing data with
  | nil => simp
  | cons sa rest ih =>
    by_cases h : sa.2 > 0
    · simp [h, ih, List.filter_cons]
    · simp [h, ih, List.filter_cons]

theorem breakdown_fold (ed : ExpenseMap) (data : List BreakdownLine) :
    ed.foldl
      (fun data cs =>
        let category_total := sumValues cs.2
        let data := data ++ [⟨cs.1, category_total, none⟩]
        cs.2.foldl
          (fun data sa =>
            if sa.2 > 0 then data ++ [⟨cs.1 ++ " - " ++ sa.1, sa.2, some cs.1⟩]
            else data)
          data)
      data
      = data ++ ed.flatMap (fun cs => catLine cs :: subLines cs) := by
  induction ed generalizing data with
  | nil => simp
  | cons cs rest ih =>
    rw [List.foldl_cons, ih]
    simp [breakdown_inner, List.flatMap_cons, catLine, subLines]

/-- The breakdown is, chunk by chunk, one category line followed by that
category's qualifying subcategory lines. -/
theorem breakdown_eq (ed : ExpenseMap) :
    get_expense_breakdown ed = ed.flatMap fun cs => catLine cs :: subLines cs := by
  simpa [get_expense_breakdown] using breakdown_fold ed []

theorem total_expenses_fold (ed : ExpenseMap) (t : Int) :
    ed.foldl (fun total cs => total + sumValues cs.2) t
      = t + (ed.map fun cs => sumValues cs.2).sum := by
  induction ed generalizing t with
  | nil => simp
  | cons cs rest ih => simp [ih, add_assoc]

theorem get_total_expenses_eq (ed : ExpenseMap) :
    get_total_expenses ed = (ed.map fun cs => sumValues cs.2).sum := by
  simpa [get_total_expenses] using total_expenses_fold ed 0

theorem sum_flatMap_int {α : Type} (l : List α) (f : α → List Int) :
    ((l.flatMap f).sum) = (l.map fun a => (f a).sum).sum := by
  induction l with
  | nil => simp
  | cons a t ih => simp [List.flatMap_cons, List.sum_append, ih]

theorem flatMap_singleton_eq_map {α β : Type} (l : List α) (f : α → β) :
    (l.flatMap fun a => [f a]) = l.map f := by
  induction l with
  | nil => simp
  | cons a t ih => simp [List.flatMap_cons, ih]

theorem lookup_eq_some_of_mem {α : Type} {m : List (String × α)} {k : String} {v : α}
    (hnd : (m.map Prod.fst).Nodup) (hm : (k, v) ∈ m) : m.lookup k = some v := by
  induction m with
  | nil => simp at hm
  | cons p rest ih =>
    cases p with
    | mk k0 v0 =>
      have hnd' : k0 ∉ rest.map Prod.fst ∧ (rest.map Prod.fst).Nodup :=
        List.nodup_cons.1 (by simpa using hnd)
      rcases List.mem_cons.1 hm with h | h
      · cases h
        simp [List.lookup_cons]
      · have hkne : (k == k0) = false := by
          have hne : k ≠ k0 := by
            intro hkp
            exact hnd'.1 (List.mem_map.2 ⟨(k, v), h, by rw [hkp]⟩)
          simpa using hne
        simp only [List.lookup_cons, hkne]
        exact ih hnd'.2 h

theorem mem_of_lookup_eq_some {α : Type} {m : List (String × α)} {k : String} {v : α}
    (h : m.lookup k = some v) : (k, v) ∈ m := by
  induction m with
  | nil => simp [List.lookup] at h
  | cons p rest ih =>
    cases p with
    | mk k0 v0 =>
      simp only [List.lookup_cons] at h
      by_cases hk : (k == k0) = true
      · rw [hk] at h
        simp only [Option.some.injEq] at h
        have : k = k0 := beq_iff_eq.1 hk
        subst this
        subst h
        exact List.mem_cons_self _ _
      · rw [Bool.eq_false_iff.2 hk] at h
        exact List.mem_cons_of_mem _ (ih h)

theorem dictGet_nonneg (m : List (String × Int)) (k : String)
    (h : ∀ p ∈ m, 0 ≤ p.2) : 0 ≤ dictGet m k 0 := by
  unfold dictGet
  cases hl : m.lookup k with
  | none => simp
  | some v =>
    simpa using h (k, v) (mem_of_lookup_eq_some hl)

theorem dictGet_sub_cases (ed : ExpenseMap) (c : String) :
    dictGet ed c [] = [] ∨ (c, dictGet ed c []) ∈ ed := by
  unfold dictGet
  cases hl : ed.lookup c with
  | none => simp
  | some subs =>
    simpa using Or.inr (mem_of_lookup_eq_some hl)

theorem sumValues_nonneg (m : List (String × Int)) (h : ∀ p ∈ m, 0 ≤ p.2) :
    0 ≤ sumValues m := by
  refine List.sum_nonneg ?_
  intro x hx
  rcases List.mem_map.1 hx with ⟨p, hp, rfl⟩
  exact h p hp

theorem sum_filter_pos (subs : SubMap) (h : ∀ sa ∈ subs, 0 ≤ sa.2) :
    ((subs.filter fun sa => decide (sa.2 > 0)).map Prod.snd).sum = sumValues subs := by
  induction subs with
  | nil => simp [sumValues]
  | cons sa rest ih =>
    have hrest := ih fun x hx => h x (List.mem_cons_of_mem _ hx)
    by_cases hpos : sa.2 > 0
    · rw [List.filter_cons, if_pos (by simpa using hpos), List.map_cons, List.sum_cons, hrest]
      simp [sumValues]
    · rw [List.filter_cons, if_neg (by simpa using hpos), hrest]
      have hz : sa.2 = 0 := le_antisymm (by omega) (h sa (List.mem_cons_self _ _))
      simp [sumValues, hz]

theorem export_inner (ti : Int) (c : String) (ct : Int) (subs : SubMap)
    (rows : List ExpenseRow) :
    subs.foldl
      (fun rows sa =>
        if sa.2 > 0 then
          rows ++
            [⟨c, sa.1, (sa.2 : ℚ),
              some (if ct > 0 then (sa.2 : ℚ) / (ct : ℚ) * 100 else 0),
              if ti > 0 then (sa.2 : ℚ) / (ti : ℚ) * 100 else 0⟩]
        else rows)
      rows
      = rows ++ (subs.filter fun sa => decide (sa.2 > 0)).map
          (fun sa => ⟨c, sa.1, (sa.2 : ℚ),
            some (if ct > 0 then (sa.2 : ℚ) / (ct : ℚ) * 100 else 0),
            if ti > 0 then (sa.2 : ℚ) / (ti : ℚ) * 100 else 0⟩) := by
  induction subs generalizing rows with
  | nil => simp
  | cons sa rest ih =>
    by_cases h : sa.2 > 0
    · simp [h, ih, List.filter_cons]
    · simp [h, ih, List.filter_cons]

theorem export_fold (ti : Int) (ed : ExpenseMap) (rows : List ExpenseRow) :
    ed.foldl
      (fun rows cs =>
        let category_total := sumValues cs.2
        let rows := rows ++
          [⟨cs.1, "TOTAL", (category_total : ℚ), none,
            if ti > 0 then (category_total : ℚ) / (ti : ℚ) * 100 else 0⟩]
        cs.2.foldl
          (fun rows sa =>
            if sa.2 > 0 then
              rows ++
                [⟨cs.1, sa.1, (sa.2 : ℚ),
                  some (if category_total > 0 then (sa.2 : ℚ) / (category_total : ℚ) * 100 else 0),
                  if ti > 0 then (sa.2 : ℚ) / (ti : ℚ) * 100 else 0⟩]
            else rows)
          rows)
      rows
      = rows ++ ed.flatMap (expenseChunk ti) := by
  induction ed generalizing rows with
  | nil => simp
  | cons cs rest ih =>
    rw [List.foldl_cons, ih]
    simp [export_inner, List.flatMap_cons, expenseChunk]

/-- The Expenses sheet is, chunk by chunk, one `TOTAL` row per category
followed by that category's qualifying subcategory rows. -/
theorem export_expenses_eq (b : BudgetData) :
    (export_to_excel b).expenses
      = b.expenses.flatMap (expenseChunk (get_total_income b.income)) := by
  simpa [export_to_excel] using export_fold (get_total_income b.income) b.expenses []

example : get_total_expenses [("A", [("x", 3), ("y", 4)]), ("B", [("z", 5)])] = 12 := by decide

example :
    get_expense_breakdown [("A", [("x", 3), ("y", 0)])] =
      [⟨"A", 3, none⟩, ⟨"A - x", 3, some "A"⟩] := by decide

example : savingsRate 1000 200 = 20 := by norm_num [savingsRate]

example : hasSubSep "Housing - Rent/Mortgage" = true := by decide

example : hasSubSep "Housing" = false := by decide

example : splitSep "Housing - Rent/Mortgage" = ["Housing", "Rent/Mortgage"] := by decide

/-- The suggestion generator is the concatenation of its seven rules, in
program order. -/
theorem gen_eq (b : BudgetData) :
    generate_savings_suggestions b =
      rule1 b ++ rule2 b ++ rule3 b ++ rule4 b ++ rule5 b ++ rule6 b ++ rule7 b := rfl

theorem mem_ite_singleton {c : Prop} [Decidable c] {x s : Suggestion}
    (h : s ∈ (if c then [x] else [])) : s = x := by
  split at h
  · exact List.mem_singleton.1 h
  · simp at h

theorem mem_rule1_title {b : BudgetData} {s : Suggestion} (h : s ∈ rule1 b) :
    s.title = "Increase Your Savings Rate" := by
  simp only [rule1] at h
  rw [mem_ite_singleton h]

theorem mem_rule2_title {b : BudgetData} {s : Suggestion} (h : s ∈ rule2 b) :
    s.title = "Reduce Housing Costs" := by
  simp only [rule2] at h
  rw [mem_ite_singleton h]

theorem mem_rule3_title {b : BudgetData} {s : Suggestion} (h : s ∈ rule3 b) :
    s.title = "Reduce Dining Out Expenses" := by
  simp only [rule3] at h
  rw [mem_ite_singleton h]

theorem mem_rule4_title {b : BudgetData} {s : Suggestion} (h : s ∈ rule4 b) :
    s.title = "Review Entertainment Spending" := by
  simp only [rule4] at h
  rw [mem_ite_singleton h]

theorem mem_rule5_title {b : BudgetData} {s : Suggestion} (h : s ∈ rule5 b) :
    s.title = "Review Subscription Services" := by
  simp only [rule5] at h
  rw [mem_ite_singleton h]

theorem mem_rule6_title {b : BudgetData} {s : Suggestion} (h : s ∈ rule6 b) :
    s.title = "Optimize Transportation Costs" := by
  simp only [rule6] at h
  rw [mem_ite_singleton h]

theorem mem_rule7_title {b : BudgetData} {s : Suggestion} (h : s ∈ rule7 b) :
    s.title = "Build an Emergency Fund" := by
  simp only [rule7] at h
  rw [mem_ite_singleton h]

theorem mem_gen_iff {b : BudgetData} {s : Suggestion} :
    s ∈ generate_savings_suggestions b ↔
      s ∈ rule1 b ∨ s ∈ rule2 b ∨ s ∈ rule3 b ∨ s ∈ rule4 b ∨ s ∈ rule5 b ∨
        s ∈ rule6 b ∨ s ∈ rule7 b := by
  rw [gen_eq]
  simp [List.mem_append, or_assoc]

/-- C1: for every expenses mapping, `get_total_expenses` equals the sum over
all expense categories of the sum of that category's subcategory amounts, and
the amounts of the category lines emitted by `get_expense_breakdown` sum to
`get_total_expenses`. -/
theorem C1_totals_consistency (ed : ExpenseMap) :
    get_total_expenses ed = (ed.map fun cs => sumValues cs.2).sum ∧
    (((get_expense_breakdown ed).filter fun l => l.parent.isNone).map
        (fun l => l.amount)).sum = get_total_expenses ed := by
  refine ⟨get_total_expenses_eq ed, ?_⟩
  rw [breakdown_eq, List.filter_flatMap]
  have hchunk : ∀ cs : String × SubMap,
      ((catLine cs :: subLines cs).filter fun l => l.parent.isNone) = [catLine cs] := by
    intro cs
    rw [List.filter_cons]
    simp [catLine, subLines, List.filter_map, Function.comp]
  simp only [hchunk]
  rw [flatMap_singleton_eq_map, List.map_map, get_total_expenses_eq]
  rfl

/-- C2: for every expenses mapping, the breakdown is exactly: for each
category in mapping (Schema-declaration) order, one category line whose
amount is the sum of its subcategory amounts (emitted even when zero),
immediately followed by one line per subcategory with positive amount, in
declaration order, labelled `"{category} - {subcategory}"` with parent label
the category; moreover every subcategory line carries a positive amount, so
a zero-amount subcategory never gets its own line. -/
theorem C2_breakdown_lines (ed : ExpenseMap) :
    (get_expense_breakdown ed
      = ed.flatMap fun cs =>
          (⟨cs.1, sumValues cs.2, none⟩ : BreakdownLine)
            :: (cs.2.filter fun sa => decide (sa.2 > 0)).map
                 (fun sa => ⟨cs.1 ++ " - " ++ sa.1, sa.2, some cs.1⟩)) ∧
    ∀ l ∈ get_expense_breakdown ed, l.parent.isSome → 0 < l.amount := by
  constructor
  · simpa [catLine, subLines] using breakdown_eq ed
  · intro l hl hp
    rw [breakdown_eq] at hl
    rcases List.mem_flatMap.1 hl with ⟨cs, hcs, hmem⟩
    rcases List.mem_cons.1 hmem with heq | hsub
    · rw [heq] at hp
      simp [catLine] at hp
    · have hsub' : ∃ a b, ((a, b) ∈ cs.2 ∧ 0 < b) ∧
          (⟨cs.1 ++ " - " ++ a, b, some cs.1⟩ : BreakdownLine) = l := by
        simpa [subLines] using hsub
      rcases hsub' with ⟨a, b, ⟨hmem2, hpos⟩, heq⟩
      rw [← heq]
      exact hpos

/-- Witness for C2 at a concrete input: the subcategory line of the mapping
`{A: {x: 3}}` is in the breakdown, and the theorem yields its positivity. -/
theorem C2_breakdown_lines_witness :
    (⟨"A - x", 3, some "A"⟩ : BreakdownLine) ∈ get_expense_breakdown [("A", [("x", 3)])] ∧
    (0 : Int) < 3 :=
  ⟨by decide,
   (C2_breakdown_lines [("A", [("x", 3)])]).2 ⟨"A - x", 3, some "A"⟩ (by decide) (by decide)⟩

/-- C4: the savings rate equals `savings / income * 100` whenever the income
total is nonzero (income totals are non-negative), equals `0` when the income
is zero — never a division error — and in particular
`savingsRate 0 x = 0` for every `x` and `savingsRate 1000 200 = 20`. -/
theorem C4_savings_rate :
    (∀ income savings : Int, income ≠ 0 → 0 ≤ income →
        savingsRate income savings = (savings : ℚ) / (income : ℚ) * 100) ∧
    (∀ x : Int, savingsRate 0 x = 0) ∧
    savingsRate 1000 200 = 20 := by
  refine ⟨?_, ?_, ?_⟩
  · intro income savings hne hnn
    have hpos : income > 0 := lt_of_le_of_ne hnn (Ne.symm hne)
    simp [savingsRate, hpos]
  · intro x
    simp [savingsRate]
  · norm_num [savingsRate]

/-- Witness for C4: the nonzero-income case applied at income 1000,
savings 200. -/
theorem C4_savings_rate_witness :
    (1000 : Int) ≠ 0 ∧ (0 : Int) ≤ 1000 ∧
      savingsRate 1000 200 = (200 : ℚ) / (1000 : ℚ) * 100 :=
  ⟨by decide, by decide, C4_savings_rate.1 1000 200 (by decide) (by decide)⟩

/-- C5: the housing rule fires exactly when the housing percentage
(`housingTotal/income*100`, `0` when income is `0`) exceeds 30, its
suggestion's potential savings is `max 0 (housingTotal - income*0.3)`, and on
Scenario B (income Salary 20000, Housing Rent 8000 only) it fires with
potential savings 2000. -/
theorem C5_housing_rule :
    (∀ b : BudgetData, 0 ≤ get_total_income b.income →
      (((∃ s ∈ generate_savings_suggestions b, s.title = "Reduce Housing Costs") ↔
          (if get_total_income b.income = 0 then (0 : ℚ)
           else (sumValues (dictGet b.expenses "Housing" []) : ℚ)
             / (get_total_income b.income : ℚ) * 100) > 30) ∧
        ∀ s ∈ generate_savings_suggestions b, s.title = "Reduce Housing Costs" →
          s.potential_savings
            = max 0 ((sumValues (dictGet b.expenses "Housing" []) : ℚ)
                - (get_total_income b.income : ℚ) * (3/10)))) ∧
    ∃ s ∈ generate_savings_suggestions scenarioB,
      s.title = "Reduce Housing Costs" ∧ s.potential_savings = 2000 := by
  have hmain : ∀ b : BudgetData, 0 ≤ get_total_income b.income →
      (((∃ s ∈ generate_savings_suggestions b, s.title = "Reduce Housing Costs") ↔
          (if get_total_income b.income = 0 then (0 : ℚ)
           else (sumValues (dictGet b.expenses "Housing" []) : ℚ)
             / (get_total_income b.income : ℚ) * 100) > 30) ∧
        ∀ s ∈ generate_savings_suggestions b, s.title = "Reduce Housing Costs" →
          s.potential_savings
            = max 0 ((sumValues (dictGet b.expenses "Housing" []) : ℚ)
                - (get_total_income b.income : ℚ) * (3/10))) := by
    intro b h0
    have hpct :
        (if get_total_income b.income > 0 then
            (sumValues (dictGet b.expenses "Housing" []) : ℚ)
              / (get_total_income b.income : ℚ) * 100
          else 0)
          = (if get_total_income b.income = 0 then (0 : ℚ)
             else (sumValues (dictGet b.expenses "Housing" []) : ℚ)
               / (get_total_income b.income : ℚ) * 100) := by
      rcases eq_or_lt_of_le h0 with heq | hlt
      · rw [if_neg (by omega), if_pos (by omega)]
      · rw [if_pos (by omega), if_neg (by omega)]
    have hmem2 : ∀ s ∈ generate_savings_suggestions b,
        s.title = "Reduce Housing Costs" → s ∈ rule2 b := by
      intro s hs htitle
      rcases mem_gen_iff.1 hs with h | h | h | h | h | h | h
      · exact absurd ((mem_rule1_title h).symm.trans htitle) (by decide)
      · exact h
      · exact absurd ((mem_rule3_title h).symm.trans htitle) (by decide)
      · exact absurd ((mem_rule4_title h).symm.trans htitle) (by decide)
      · exact absurd ((mem_rule5_title h).symm.trans htitle) (by decide)
      · exact absurd ((mem_rule6_title h).symm.trans htitle) (by decide)
      · exact absurd ((mem_rule7_title h).symm.trans htitle) (by decide)
    constructor
    · constructor
      · rintro ⟨s, hs, htitle⟩
        have h2 := hmem2 s hs htitle
        rw [← hpct]
        simp only [rule2] at h2
        by_cases hc :
            (if get_total_income b.income > 0 then
                (sumValues (dictGet b.expenses "Housing" []) : ℚ)
                  / (get_total_income b.income : ℚ) * 100
              else 0) > 30
        · exact hc
        · rw [if_neg hc] at h2
          simp at h2
      · intro hc
        rw [← hpct] at hc
        refine ⟨⟨"Reduce Housing Costs",
          if (sumValues (dictGet b.expenses "Housing" []) : ℚ)
              > (get_total_income b.income : ℚ) * (3/10) then
            (sumValues (dictGet b.expenses "Housing" []) : ℚ)
              - (get_total_income b.income : ℚ) * (3/10)
          else 0⟩, ?_, rfl⟩
        refine mem_gen_iff.2 (Or.inr (Or.inl ?_))
        simp only [rule2]
        rw [if_pos hc]
        exact List.mem_singleton.2 rfl
    · intro s hs htitle
      have h2 := hmem2 s hs htitle
      simp only [rule2] at h2
      have hx := mem_ite_singleton h2
      rw [hx]
      by_cases hgt :
          (sumValues (dictGet b.expenses "Housing" []) : ℚ)
            > (get_total_income b.income : ℚ) * (3/10)
      · rw [if_pos hgt, max_eq_right (by linarith)]
      · rw [if_neg hgt, max_eq_left (by linarith)]
  refine ⟨hmain, ?_⟩
  have hti : get_total_income scenarioB.income = 20000 := by decide
  have hht : sumValues (dictGet scenarioB.expenses "Housing" []) = 8000 := by decide
  obtain ⟨hiff, hpot⟩ := hmain scenarioB (by rw [hti]; decide)
  have hcond : (if get_total_income scenarioB.income = 0 then (0 : ℚ)
      else (sumValues (dictGet scenarioB.expenses "Housing" []) : ℚ)
        / (get_total_income scenarioB.income : ℚ) * 100) > 30 := by
    rw [hti, hht]
    norm_num
  obtain ⟨s, hs, htitle⟩ := hiff.2 hcond
  refine ⟨s, hs, htitle, ?_⟩
  rw [hpot s hs htitle, hti, hht]
  norm_num

/-- Witness for C5: the theorem's Scenario B conclusion, a closed fact. -/
theorem C5_housing_rule_witness :
    (0 : Int) ≤ get_total_income scenarioB.income ∧
    ∃ s ∈ generate_savings_suggestions scenarioB,
      s.title = "Reduce Housing Costs" ∧ s.potential_savings = 2000 :=
  ⟨by decide, C5_housing_rule.2⟩

/-- C6: the emergency-fund rule fires exactly when the Emergency Fund amount
is strictly below `income*0.1`; when it fires its suggestion is the last one
emitted, with potential savings `-income*0.1`; with income 45000 and
Emergency Fund 0 it fires. -/
theorem C6_emergency_rule :
    (∀ b : BudgetData,
      ((∃ s ∈ generate_savings_suggestions b, s.title = "Build an Emergency Fund") ↔
        ((dictGet (dictGet b.expenses "Savings" []) "Emergency Fund" 0 : Int) : ℚ)
          < (get_total_income b.income : ℚ) * (1/10)) ∧
      (((dictGet (dictGet b.expenses "Savings" []) "Emergency Fund" 0 : Int) : ℚ)
          < (get_total_income b.income : ℚ) * (1/10) →
        (generate_savings_suggestions b).getLast?
          = some ⟨"Build an Emergency Fund", -(get_total_income b.income : ℚ) * (1/10)⟩)) ∧
    (get_total_income scenarioEF.income = 45000 ∧
     dictGet (dictGet scenarioEF.expenses "Savings" []) "Emergency Fund" 0 = 0 ∧
     ∃ s ∈ generate_savings_suggestions scenarioEF, s.title = "Build an Emergency Fund") := by
  have hmain : ∀ b : BudgetData,
      ((∃ s ∈ generate_savings_suggestions b, s.title = "Build an Emergency Fund") ↔
        ((dictGet (dictGet b.expenses "Savings" []) "Emergency Fund" 0 : Int) : ℚ)
          < (get_total_income b.income : ℚ) * (1/10)) ∧
      (((dictGet (dictGet b.expenses "Savings" []) "Emergency Fund" 0 : Int) : ℚ)
          < (get_total_income b.income : ℚ) * (1/10) →
        (generate_savings_suggestions b).getLast?
          = some ⟨"Build an Emergency Fund", -(get_total_income b.income : ℚ) * (1/10)⟩) := by
    intro b
    have hr7 : ((dictGet (dictGet b.expenses "Savings" []) "Emergency Fund" 0 : Int) : ℚ)
        < (get_total_income b.income : ℚ) * (1/10) →
        rule7 b = [⟨"Build an Emergency Fund", -(get_total_income b.income : ℚ) * (1/10)⟩] := by
      intro hc
      simp only [rule7]
      rw [if_pos hc]
    constructor
    · constructor
      · rintro ⟨s, hs, htitle⟩
        rcases mem_gen_iff.1 hs with h | h | h | h | h | h | h
        · exact absurd ((mem_rule1_title h).symm.trans htitle) (by decide)
        · exact absurd ((mem_rule2_title h).symm.trans htitle) (by decide)
        · exact absurd ((mem_rule3_title h).symm.trans htitle) (by decide)
        · exact absurd ((mem_rule4_title h).symm.trans htitle) (by decide)
        · exact absurd ((mem_rule5_title h).symm.trans htitle) (by decide)
        · exact absurd ((mem_rule6_title h).symm.trans htitle) (by decide)
        · simp only [rule7] at h
          by_cases hc : ((dictGet (dictGet b.expenses "Savings" []) "Emergency Fund" 0 : Int) : ℚ)
              < (get_total_income b.income : ℚ) * (1/10)
          · exact hc
          · rw [if_neg hc] at h
            simp at h
      · intro hc
        refine ⟨⟨"Build an Emergency Fund", -(get_total_income b.income : ℚ) * (1/10)⟩,
          ?_, rfl⟩
        refine mem_gen_iff.2 (Or.inr (Or.inr (Or.inr (Or.inr (Or.inr (Or.inr ?_))))))
        rw [hr7 hc]
        exact List.mem_singleton.2 rfl
    · intro hc
      rw [gen_eq, hr7 hc, List.getLast?_concat]
  refine ⟨hmain, by decide, by decide, ?_⟩
  have hti : get_total_income scenarioEF.income = 45000 := by decide
  have hef : dictGet (dictGet scenarioEF.expenses "Savings" []) "Emergency Fund" 0 = 0 := by decide
  refine (hmain scenarioEF).1.2 ?_
  rw [hti, hef]
  norm_num

/-- Witness for C6: its hypothesis-bearing last-element part discharged on the
concrete snapshot with income 45000 and an empty Emergency Fund. -/
theorem C6_emergency_rule_witness :
    ∃ s ∈ generate_savings_suggestions scenarioEF, s.title = "Build an Emergency Fund" :=
  C6_emergency_rule.2.2.2

theorem rule_length_le_one (b : BudgetData) :
    (rule1 b).length ≤ 1 ∧ (rule2 b).length ≤ 1 ∧ (rule3 b).length ≤ 1 ∧
    (rule4 b).length ≤ 1 ∧ (rule5 b).length ≤ 1 ∧ (rule6 b).length ≤ 1 ∧
    (rule7 b).length ≤ 1 := by
  refine ⟨?_, ?_, ?_, ?_, ?_, ?_, ?_⟩ <;>
    simp only [rule1, rule2, rule3, rule4, rule5, rule6, rule7] <;>
    (repeat' split) <;> simp

theorem expenses_values_nonneg {b : BudgetData}
    (hexp : ∀ cs ∈ b.expenses, ∀ sa ∈ cs.2, 0 ≤ sa.2) (c : String) :
    ∀ p ∈ dictGet b.expenses c [], 0 ≤ p.2 := by
  rcases dictGet_sub_cases b.expenses c with h | h
  · rw [h]
    intro p hp
    simp at hp
  · intro p hp
    exact hexp _ h p hp

/-- C9: on any snapshot whose amounts are non-negative, the generator emits
at most 7 suggestions, and every suggestion other than the emergency-fund one
has non-negative potential savings. -/
theorem C9_suggestion_bounds (b : BudgetData)
    (hinc : ∀ p ∈ b.income, 0 ≤ p.2)
    (hexp : ∀ cs ∈ b.expenses, ∀ sa ∈ cs.2, 0 ≤ sa.2) :
    (generate_savings_suggestions b).length ≤ 7 ∧
    ∀ s ∈ generate_savings_suggestions b,
      s.title ≠ "Build an Emergency Fund" → 0 ≤ s.potential_savings := by
  have hval : ∀ c k : String, (0 : Int) ≤ dictGet (dictGet b.expenses c []) k 0 :=
    fun c k => dictGet_nonneg _ _ (expenses_values_nonneg hexp c)
  have htot : ∀ c : String, (0 : Int) ≤ sumValues (dictGet b.expenses c []) :=
    fun c => sumValues_nonneg _ (expenses_values_nonneg hexp c)
  constructor
  · obtain ⟨h1, h2, h3, h4, h5, h6, h7⟩ := rule_length_le_one b
    rw [gen_eq]
    simp only [List.length_append]
    omega
  · intro s hs htitle
    rcases mem_gen_iff.1 hs with h | h | h | h | h | h | h
    · simp only [rule1] at h
      rw [mem_ite_singleton h]
      simp only
      split
      · rename_i hlt
        linarith
      · exact le_refl 0
    · simp only [rule2] at h
      rw [mem_ite_singleton h]
      simp only
      split
      · rename_i hgt
        linarith
      · exact le_refl 0
    · simp only [rule3] at h
      rw [mem_ite_singleton h]
      simp only
      refine mul_nonneg ?_ (by norm_num)
      exact_mod_cast add_nonneg (hval "Food" "Eating Out") (hval "Food" "Food Delivery")
    · simp only [rule4] at h
      rw [mem_ite_singleton h]
      simp only
      refine mul_nonneg ?_ (by norm_num)
      exact_mod_cast htot "Entertainment"
    · simp only [rule5] at h
      rw [mem_ite_singleton h]
      simp only
      refine mul_nonneg ?_ (by norm_num)
      exact_mod_cast hval "Entertainment" "Streaming Services"
    · simp only [rule6] at h
      rw [mem_ite_singleton h]
      simp only
      refine mul_nonneg ?_ (by norm_num)
      exact_mod_cast htot "Transportation"
    · exact absurd (mem_rule7_title h) htitle

/-- Witness for C9 on a concrete non-negative snapshot. -/
theorem C9_suggestion_bounds_witness :
    (generate_savings_suggestions scenarioEF).length ≤ 7 ∧
    ∀ s ∈ generate_savings_suggestions scenarioEF,
      s.title ≠ "Build an Emergency Fund" → 0 ≤ s.potential_savings :=
  C9_suggestion_bounds scenarioEF (by decide) (by decide)

theorem categoryTotalOf_eq {ed : ExpenseMap} {cs : String × SubMap}
    (hnd : (ed.map Prod.fst).Nodup) (hcs : cs ∈ ed) :
    categoryTotalOf ed cs.1 = sumValues cs.2 := by
  unfold categoryTotalOf dictGet
  rw [lookup_eq_some_of_mem hnd (by simpa using hcs)]
  rfl

/-- C8: for any snapshot whose income keys are the Schema income categories
(and whose expense keys are duplicate-free, as Schema snapshots are), the
Income sheet has exactly one row per Schema income category in order, and
every subcategory row of the Expenses sheet carries the amount stored for
that category/subcategory in the snapshot. -/
theorem C8_export_round_trip (b : BudgetData)
    (hkeys : b.income.map Prod.fst = INCOME_CATEGORIES)
    (hnd : (b.expenses.map Prod.fst).Nodup)
    (hsubnd : ∀ cs ∈ b.expenses, (cs.2.map Prod.fst).Nodup) :
    ((export_to_excel b).income.map (fun r => r.category) = INCOME_CATEGORIES) ∧
    ∀ row ∈ (export_to_excel b).expenses, row.subcategory ≠ "TOTAL" →
      ∃ a : Int,
        (dictGet b.expenses row.main_category []).lookup row.subcategory = some a ∧
        row.amount = (a : ℚ) := by
  constructor
  · have hinc : (export_to_excel b).income = b.income.map fun p => ⟨p.1, (p.2 : ℚ)⟩ := rfl
    rw [hinc, List.map_map]
    simpa using hkeys
  · intro row hrow hsub
    rw [export_expenses_eq] at hrow
    rcases List.mem_flatMap.1 hrow with ⟨cs, hcs, hmem⟩
    rcases List.mem_cons.1 hmem with heq | hsubrow
    · rw [heq] at hsub
      simp [expenseChunk] at hsub
    · have hsubrow' : ∃ sa, (sa ∈ cs.2 ∧ 0 < sa.2) ∧
          (⟨cs.1, sa.1, (sa.2 : ℚ),
            some (if sumValues cs.2 > 0 then (sa.2 : ℚ) / (sumValues cs.2 : ℚ) * 100 else 0),
            if get_total_income b.income > 0 then
              (sa.2 : ℚ) / (get_total_income b.income : ℚ) * 100 else 0⟩ : ExpenseRow) = row := by
        simp only [expenseChunk, List.mem_map, List.mem_filter, decide_eq_true_eq] at hsubrow
        exact hsubrow
      rcases hsubrow' with ⟨sa, ⟨hsa, _⟩, heq⟩
      refine ⟨sa.2, ?_, by rw [← heq]⟩
      have hmc : row.main_category = cs.1 := by rw [← heq]
      have hsc : row.subcategory = sa.1 := by rw [← heq]
      rw [hmc, hsc]
      unfold dictGet
      rw [lookup_eq_some_of_mem hnd (by simpa using hcs)]
      simp only [Option.getD_some]
      exact lookup_eq_some_of_mem (hsubnd cs hcs) (by simpa using hsa)

/-- Witness for C8 on a concrete snapshot. -/
theorem C8_export_round_trip_witness :
    ((export_to_excel witnessBudget).income.map (fun r => r.category) = INCOME_CATEGORIES) ∧
    ∀ row ∈ (export_to_excel witnessBudget).expenses, row.subcategory ≠ "TOTAL" →
      ∃ a : Int,
        (dictGet witnessBudget.expenses row.main_category []).lookup row.subcategory = some a ∧
        row.amount = (a : ℚ) :=
  C8_export_round_trip witnessBudget (by decide) (by decide) (by decide)

/-- C10: on any snapshot with non-negative amounts (and duplicate-free
category keys), every subcategory row of the Expenses sheet belongs to a
category with strictly positive total, and its percent-of-category is
exactly `amount / categoryTotal * 100` — the zero-denominator fallback of
that computation is unreachable. -/
theorem C10_pct_of_category_safe (b : BudgetData)
    (hexp : ∀ cs ∈ b.expenses, ∀ sa ∈ cs.2, 0 ≤ sa.2)
    (hnd : (b.expenses.map Prod.fst).Nodup) :
    ∀ row ∈ (export_to_excel b).expenses, row.subcategory ≠ "TOTAL" →
      0 < categoryTotalOf b.expenses row.main_category ∧
      row.pct_of_category
        = some (row.amount / (categoryTotalOf b.expenses row.main_category : ℚ) * 100) := by
  intro row hrow hsub
  rw [export_expenses_eq] at hrow
  rcases List.mem_flatMap.1 hrow with ⟨cs, hcs, hmem⟩
  rcases List.mem_cons.1 hmem with heq | hsubrow
  · rw [heq] at hsub
    simp [expenseChunk] at hsub
  · have hsubrow' : ∃ sa, (sa ∈ cs.2 ∧ 0 < sa.2) ∧
        (⟨cs.1, sa.1, (sa.2 : ℚ),
          some (if sumValues cs.2 > 0 then (sa.2 : ℚ) / (sumValues cs.2 : ℚ) * 100 else 0),
          if get_total_income b.income > 0 then
            (sa.2 : ℚ) / (get_total_income b.income : ℚ) * 100 else 0⟩ : ExpenseRow) = row := by
      simp only [expenseChunk, List.mem_map, List.mem_filter, decide_eq_true_eq] at hsubrow
      exact hsubrow
    rcases hsubrow' with ⟨sa, ⟨hsa, hpos⟩, heq⟩
    have hct : categoryTotalOf b.expenses cs.1 = sumValues cs.2 := categoryTotalOf_eq hnd hcs
    have hctpos : 0 < sumValues cs.2 := by
      have hle : sa.2 ≤ sumValues cs.2 := by
        refine List.single_le_sum ?_ _ (List.mem_map.2 ⟨sa, hsa, rfl⟩)
        intro x hx
        rcases List.mem_map.1 hx with ⟨p, hp, rfl⟩
        exact hexp cs hcs p hp
      omega
    have hmc : row.main_category = cs.1 := by rw [← heq]
    rw [hmc, hct]
    constructor
    · exact hctpos
    · rw [← heq]
      simp only
      rw [if_pos hctpos]

/-- Witness for C10 on a concrete snapshot. -/
theorem C10_pct_of_category_safe_witness :
    (0 : Int) < categoryTotalOf witnessBudget.expenses "A" ∧
    ∀ row ∈ (export_to_excel witnessBudget).expenses, row.subcategory ≠ "TOTAL" →
      0 < categoryTotalOf witnessBudget.expenses row.main_category ∧
      row.pct_of_category
        = some (row.amount / (categoryTotalOf witnessBudget.expenses row.main_category : ℚ) * 100) :=
  ⟨by decide, C10_pct_of_category_safe witnessBudget (by decide) (by decide)⟩

theorem flatMap_congr_mem {α β : Type} {l : List α} {f g : α → List β}
    (h : ∀ a ∈ l, f a = g a) : l.flatMap f = l.flatMap g := by
  induction l with
  | nil => simp
  | cons a t ih =>
    rw [List.flatMap_cons, List.flatMap_cons, h a (List.mem_cons_self _ _),
      ih fun x hx => h x (List.mem_cons_of_mem _ hx)]

theorem mem_subLines {cs : String × SubMap} {l : BreakdownLine} (h : l ∈ subLines cs) :
    ∃ sa, sa ∈ cs.2 ∧ 0 < sa.2 ∧ l = ⟨cs.1 ++ " - " ++ sa.1, sa.2, some cs.1⟩ := by
  have h' : ∃ a b, ((a, b) ∈ cs.2 ∧ 0 < b) ∧
      (⟨cs.1 ++ " - " ++ a, b, some cs.1⟩ : BreakdownLine) = l := by
    simpa [subLines] using h
  rcases h' with ⟨a, b, ⟨hm, hb⟩, heq⟩
  exact ⟨(a, b), hm, hb, heq.symm⟩

theorem entry_eq_of_key_eq {ed : ExpenseMap} (hnd : (ed.map Prod.fst).Nodup)
    {cs cs' : String × SubMap} (h : cs ∈ ed) (h' : cs' ∈ ed) (hk : cs.1 = cs'.1) :
    cs = cs' := by
  have h1 : ed.lookup cs.1 = some cs.2 :=
    lookup_eq_some_of_mem hnd (by simpa using h)
  have h2 : ed.lookup cs'.1 = some cs'.2 :=
    lookup_eq_some_of_mem hnd (by simpa using h')
  rw [hk] at h1
  rw [h1] at h2
  exact Prod.ext hk (Option.some.injEq _ _ ▸ h2)

theorem filter_main (ed : ExpenseMap)
    (hcat : ∀ cs ∈ ed, hasSubSep cs.1 = false)
    (hsep : ∀ cs ∈ ed, ∀ sa ∈ cs.2, hasSubSep (cs.1 ++ " - " ++ sa.1) = true) :
    (get_expense_breakdown ed).filter (fun l => !hasSubSep l.category)
      = ed.map catLine := by
  rw [breakdown_eq, List.filter_flatMap, ← flatMap_singleton_eq_map]
  refine flatMap_congr_mem ?_
  intro cs hcs
  rw [List.filter_cons]
  have hc : (!hasSubSep (catLine cs).category) = true := by
    simp [catLine, hcat cs hcs]
  rw [if_pos hc]
  have hnilsub : (subLines cs).filter (fun l => !hasSubSep l.category) = [] := by
    refine List.filter_eq_nil_iff.2 ?_
    intro l hl
    rcases mem_subLines hl with ⟨sa, hsa, _, rfl⟩
    simp [hsep cs hcs sa hsa]
  rw [hnilsub]

theorem filter_sub (ed : ExpenseMap)
    (hcat : ∀ cs ∈ ed, hasSubSep cs.1 = false)
    (hsep : ∀ cs ∈ ed, ∀ sa ∈ cs.2, hasSubSep (cs.1 ++ " - " ++ sa.1) = true) :
    (get_expense_breakdown ed).filter (fun l => hasSubSep l.category)
      = ed.flatMap subLines := by
  rw [breakdown_eq, List.filter_flatMap]
  refine flatMap_congr_mem ?_
  intro cs hcs
  rw [List.filter_cons]
  have hc : hasSubSep (catLine cs).category = false := by
    simpa [catLine] using hcat cs hcs
  rw [if_neg (by simp [hc])]
  refine List.filter_eq_self.2 ?_
  intro l hl
  rcases mem_subLines hl with ⟨sa, hsa, _, rfl⟩
  simpa using hsep cs hcs sa hsa

theorem hierarchy_eq (ed : ExpenseMap)
    (hcat : ∀ cs ∈ ed, hasSubSep cs.1 = false)
    (hsep : ∀ cs ∈ ed, ∀ sa ∈ cs.2, hasSubSep (cs.1 ++ " - " ++ sa.1) = true) :
    hierarchy_data ed =
      ((ed.map catLine).mergeSort (fun a b => decide (b.amount ≤ a.amount))).map
          (fun l => (⟨l.category, "", l.amount, l.category, true⟩ : HierarchyNode))
        ++ (ed.flatMap subLines).map
          (fun l => (⟨l.category, (splitSep l.category).headD "", l.amount,
              (splitSep l.category).getD 1 "", false⟩ : HierarchyNode)) := by
  simp only [hierarchy_data]
  rw [filter_main ed hcat hsep, filter_sub ed hcat hsep]

theorem subLines_filter_self {cs : String × SubMap} {k : String} (hk : cs.1 = k)
    (hsp : ∀ sa ∈ cs.2, (splitSep (cs.1 ++ " - " ++ sa.1)).headD "" = cs.1) :
    (subLines cs).filter (fun line => (splitSep line.category).headD "" == k)
      = subLines cs := by
  refine List.filter_eq_self.2 ?_
  intro l hl
  rcases mem_subLines hl with ⟨sa, hsa, _, rfl⟩
  simp only
  rw [hsp sa hsa, hk]
  exact beq_self_eq_true k

theorem subLines_filter_nil {cs : String × SubMap} {k : String} (hk : cs.1 ≠ k)
    (hsp : ∀ sa ∈ cs.2, (splitSep (cs.1 ++ " - " ++ sa.1)).headD "" = cs.1) :
    (subLines cs).filter (fun line => (splitSep line.category).headD "" == k)
      = [] := by
  refine List.filter_eq_nil_iff.2 ?_
  intro l hl
  rcases mem_subLines hl with ⟨sa, hsa, _, rfl⟩
  simp only
  rw [hsp sa hsa]
  simp [hk]

theorem subLines_amount_sum {cs : String × SubMap} (hnn : ∀ sa ∈ cs.2, 0 ≤ sa.2) :
    ((subLines cs).map (fun line => line.amount)).sum = sumValues cs.2 := by
  unfold subLines
  rw [List.map_map]
  simpa using sum_filter_pos cs.2 hnn

theorem children_sum_helper (k : String) (subsK : SubMap)
    (hnnK : ∀ sa ∈ subsK, 0 ≤ sa.2) :
    ∀ l : ExpenseMap,
      (l.map Prod.fst).Nodup →
      (∀ cs ∈ l, ∀ sa ∈ cs.2, (splitSep (cs.1 ++ " - " ++ sa.1)).headD "" = cs.1) →
      (k, subsK) ∈ l →
      (l.map fun cs =>
        (((subLines cs).filter fun line =>
            (splitSep line.category).headD "" == k).map (fun line => line.amount)).sum).sum
        = sumValues subsK := by
  intro l
  induction l with
  | nil =>
    intro _ _ hm
    simp at hm
  | cons cs0 rest ih =>
    intro hnd hsp hm
    have hnd' : cs0.1 ∉ rest.map Prod.fst ∧ (rest.map Prod.fst).Nodup :=
      List.nodup_cons.1 (by simpa using hnd)
    rw [List.map_cons, List.sum_cons]
    rcases List.mem_cons.1 hm with heq | hm'
    · have h0 : cs0 = (k, subsK) := heq.symm
      subst h0
      rw [subLines_filter_self rfl (hsp _ (List.mem_cons_self _ _)),
        subLines_amount_sum hnnK]
      have hrest : (rest.map fun cs =>
          (((subLines cs).filter fun line =>
              (splitSep line.category).headD "" == k).map (fun line => line.amount)).sum).sum
          = 0 := by
        refine List.sum_eq_zero ?_
        intro x hx
        rcases List.mem_map.1 hx with ⟨cs, hcs, rfl⟩
        have hne : cs.1 ≠ k := by
          intro hkk
          exact hnd'.1 (by rw [← hkk] at *; exact List.mem_map.2 ⟨cs, hcs, rfl⟩)
        rw [subLines_filter_nil hne (hsp cs (List.mem_cons_of_mem _ hcs))]
        rfl
      rw [hrest, add_zero]
    · have hk0 : cs0.1 ≠ k := by
        intro hkk
        refine hnd'.1 ?_
        rw [hkk]
        exact List.mem_map.2 ⟨(k, subsK), hm', rfl⟩
      rw [subLines_filter_nil hk0 (hsp cs0 (List.mem_cons_self _ _))]
      rw [ih hnd'.2 (fun cs hcs => hsp cs (List.mem_cons_of_mem _ hcs)) hm']
      simp

/-- C3: with the Schema's naming discipline (category names nonempty,
separator-free, and labels splitting back to their category), on a snapshot
with non-negative amounts and duplicate-free category keys: every node of
the visualization hierarchy whose id is a category name is a root with empty
parent carrying the category total as its value, such a node exists for
every category, and for every category with at least one qualifying
subcategory the values of its child nodes sum to the category node's value. -/
theorem C3_hierarchy_conservation (ed : ExpenseMap)
    (hnn : ∀ cs ∈ ed, ∀ sa ∈ cs.2, 0 ≤ sa.2)
    (hnd : (ed.map Prod.fst).Nodup)
    (hne : ∀ cs ∈ ed, cs.1 ≠ "")
    (hcat : ∀ cs ∈ ed, hasSubSep cs.1 = false)
    (hsep : ∀ cs ∈ ed, ∀ sa ∈ cs.2, hasSubSep (cs.1 ++ " - " ++ sa.1) = true)
    (hsplit : ∀ cs ∈ ed, ∀ sa ∈ cs.2,
      (splitSep (cs.1 ++ " - " ++ sa.1)).headD "" = cs.1) :
    (∀ cs ∈ ed, ∀ n ∈ hierarchy_data ed, n.id = cs.1 →
        n.parent = "" ∧ n.is_root = true ∧ n.value = sumValues cs.2) ∧
    (∀ cs ∈ ed, ∃ n ∈ hierarchy_data ed, n.id = cs.1) ∧
    (∀ cs ∈ ed, (∃ sa ∈ cs.2, 0 < sa.2) →
        (((hierarchy_data ed).filter fun n => n.parent == cs.1).map
            (fun n => n.value)).sum = sumValues cs.2) := by
  have hH := hierarchy_eq ed hcat hsep
  refine ⟨?_, ?_, ?_⟩
  · intro cs hcs n hn hid
    rw [hH] at hn
    rcases List.mem_append.1 hn with hroot | hchild
    · rcases List.mem_map.1 hroot with ⟨l, hl, rfl⟩
      rcases List.mem_map.1 (List.mem_mergeSort.1 hl) with ⟨cs', hcs', rfl⟩
      refine ⟨rfl, rfl, ?_⟩
      have hkey : cs'.1 = cs.1 := by simpa [catLine] using hid
      have : cs' = cs := entry_eq_of_key_eq hnd hcs' hcs hkey
      rw [← this]
      rfl
    · rcases List.mem_map.1 hchild with ⟨l, hl, rfl⟩
      rcases List.mem_flatMap.1 hl with ⟨cs', hcs', hsubl⟩
      rcases mem_subLines hsubl with ⟨sa, hsa, _, rfl⟩
      have htrue := hsep cs' hcs' sa hsa
      have hid' : cs'.1 ++ " - " ++ sa.1 = cs.1 := hid
      rw [hid'] at htrue
      rw [hcat cs hcs] at htrue
      exact absurd htrue (by decide)
  · intro cs hcs
    refine ⟨⟨cs.1, "", sumValues cs.2, cs.1, true⟩, ?_, rfl⟩
    rw [hH]
    refine List.mem_append.2 (Or.inl ?_)
    exact List.mem_map.2
      ⟨catLine cs, List.mem_mergeSort.2 (List.mem_map.2 ⟨cs, hcs, rfl⟩), rfl⟩
  · intro cs hcs _
    rw [hH, List.filter_append]
    have hroots : ((((ed.map catLine).mergeSort
          (fun a b => decide (b.amount ≤ a.amount))).map
            (fun l => (⟨l.category, "", l.amount, l.category, true⟩ : HierarchyNode))).filter
          (fun n => n.parent == cs.1)) = [] := by
      refine List.filter_eq_nil_iff.2 ?_
      intro n hn
      rcases List.mem_map.1 hn with ⟨l, hl, rfl⟩
      simp only
      intro hcontra
      exact hne cs hcs (beq_iff_eq.1 hcontra).symm
    rw [hroots, List.nil_append, List.filter_map, List.map_map]
    have hcomp1 : ((fun n : HierarchyNode => n.parent == cs.1) ∘
        (fun l : BreakdownLine =>
          (⟨l.category, (splitSep l.category).headD "", l.amount,
            (splitSep l.category).getD 1 "", false⟩ : HierarchyNode)))
        = fun line => (splitSep line.category).headD "" == cs.1 := rfl
    have hcomp2 : ((fun n : HierarchyNode => n.value) ∘
        (fun l : BreakdownLine =>
          (⟨l.category, (splitSep l.category).headD "", l.amount,
            (splitSep l.category).getD 1 "", false⟩ : HierarchyNode)))
        = fun line : BreakdownLine => line.amount := rfl
    rw [hcomp1, hcomp2, List.filter_flatMap, List.map_flatMap, sum_flatMap_int]
    exact children_sum_helper cs.1 cs.2 (hnn cs hcs) ed hnd hsplit (by simpa using hcs)

/-- Witness for C3 on a concrete snapshot, every hypothesis decided. -/
theorem C3_hierarchy_conservation_witness :
    (∀ cs ∈ hierarchyWitnessExpenses, ∀ n ∈ hierarchy_data hierarchyWitnessExpenses,
        n.id = cs.1 → n.parent = "" ∧ n.is_root = true ∧ n.value = sumValues cs.2) ∧
    (∀ cs ∈ hierarchyWitnessExpenses,
        ∃ n ∈ hierarchy_data hierarchyWitnessExpenses, n.id = cs.1) ∧
    (∀ cs ∈ hierarchyWitnessExpenses, (∃ sa ∈ cs.2, 0 < sa.2) →
        (((hierarchy_data hierarchyWitnessExpenses).filter
            fun n => n.parent == cs.1).map (fun n => n.value)).sum = sumValues cs.2) :=
  C3_hierarchy_conservation hierarchyWitnessExpenses (by decide) (by decide) (by decide)
    (by decide) (by decide) (by decide)

/-- C7 counterexample: on Schema-invalid snapshots (a negative amount; an
unknown category key) the engine raises nothing and rejects nothing — both
analytic functions return ordinary results computed from the offending
entries. -/
theorem C7_counterexample :
    schemaValid badBudget = false ∧
    get_expense_breakdown badBudget.expenses = [⟨"Housing", -5, none⟩] ∧
    generate_savings_suggestions badBudget = [⟨"Build an Emergency Fund", -100⟩] ∧
    schemaValid badBudget2 = false ∧
    get_expense_breakdown badBudget2.expenses
      = [⟨"Teleport", 3, none⟩, ⟨"Teleport - Beam", 3, some "Teleport"⟩] := by
  have hti : get_total_income badBudget.income = 1000 := by decide
  have hte : get_total_expenses badBudget.expenses = -5 := by decide
  have hht : sumValues (dictGet badBudget.expenses "Housing" []) = -5 := by decide
  have hfoodE : dictGet (dictGet badBudget.expenses "Food" []) "Eating Out" 0 = 0 := by decide
  have hfoodD : dictGet (dictGet badBudget.expenses "Food" []) "Food Delivery" 0 = 0 := by decide
  have hfoodG : dictGet (dictGet badBudget.expenses "Food" []) "Groceries" 0 = 0 := by decide
  have hent : sumValues (dictGet badBudget.expenses "Entertainment" []) = 0 := by decide
  have hstr : dictGet (dictGet badBudget.expenses "Entertainment" []) "Streaming Services" 0 = 0 := by
    decide
  have htr : sumValues (dictGet badBudget.expenses "Transportation" []) = 0 := by decide
  have hef : dictGet (dictGet badBudget.expenses "Savings" []) "Emergency Fund" 0 = 0 := by decide
  refine ⟨by decide, by decide, ?_, by decide, by decide⟩
  rw [gen_eq]
  have h1 : rule1 badBudget = [] := by
    simp only [rule1, get_savings]
    rw [hti, hte]
    norm_num [savingsRate]
  have h2 : rule2 badBudget = [] := by
    simp only [rule2]
    rw [hti, hht]
    norm_num
  have h3 : rule3 badBudget = [] := by
    simp only [rule3]
    rw [hfoodE, hfoodD]
    norm_num
  have h4 : rule4 badBudget = [] := by
    simp only [rule4]
    rw [hti, hent]
    norm_num
  have h5 : rule5 badBudget = [] := by
    simp only [rule5]
    rw [hstr]
    norm_num
  have h6 : rule6 badBudget = [] := by
    simp only [rule6]
    rw [hti, htr]
    norm_num
  have h7 : rule7 badBudget = [⟨"Build an Emergency Fund", -100⟩] := by
    simp only [rule7]
    rw [hti, hef]
    norm_num
  rw [h1, h2, h3, h4, h5, h6, h7]
  rfl

/-- C7 amended: the engine performs no schema validation: every category
entry — Schema-listed or not, negative or not — contributes its category line
to the breakdown, and on concrete Schema-invalid snapshots both analytic
functions return ordinary results incorporating the offending entries
instead of rejecting the snapshot. -/
theorem C7_no_validation :
    (∀ ed : ExpenseMap, ∀ cs ∈ ed,
      (⟨cs.1, sumValues cs.2, none⟩ : BreakdownLine) ∈ get_expense_breakdown ed) ∧
    schemaValid badBudget = false ∧
    get_expense_breakdown badBudget.expenses = [⟨"Housing", -5, none⟩] ∧
    schemaValid badBudget2 = false ∧
    get_expense_breakdown badBudget2.expenses
      = [⟨"Teleport", 3, none⟩, ⟨"Teleport - Beam", 3, some "Teleport"⟩] := by
  refine ⟨?_, by decide, by decide, by decide, by decide⟩
  intro ed cs hcs
  rw [breakdown_eq]
  exact List.mem_flatMap.2 ⟨cs, hcs, List.mem_cons_self _ _⟩

/-- Witness for C7's amended theorem: the unvalidated negative entry's
category line is in the breakdown of the invalid snapshot. -/
theorem C7_no_validation_witness :
    (⟨"Housing", -5, none⟩ : BreakdownLine) ∈ get_expense_breakdown badBudget.expenses := by
  have h := C7_no_validation.1 badBudget.expenses ("Housing", [("Rent/Mortgage", -5)]) (by decide)
  simpa [sumValues] using h
